import Mathlib

/-!
Verification development for the sayonara secure-erasure core.

The definitions below are a shallow embedding of the two source files
`src/core/src/verification/recovery_test.rs` and
`src/core/src/wipe_orchestrator.rs`.  Device reads are modelled by a total
byte map `Nat → Fin 256` (the device contents), the thread-local RNG by a
total stream `Nat → Nat` of draws, and the secure RNG used for pattern
generation by a stream `Nat → Fin 256`.  External collaborators (drive
drivers, the recovery coordinator, the process-command channel) are kept
abstract: each orchestrator branch takes the outcomes of its external calls
as parameters and additionally returns the list of external interactions it
performed, so that claims about control flow (which external calls happen,
and in which order) are provable.  Progress rendering and console output are
side effects with no influence on any result and are omitted.
-/

namespace Sayonara

/-- A byte, as stored on the device. -/
abbrev Byte := Fin 256

/-! ## Verification Engine (`recovery_test.rs`) -/

/-- The 4096-byte window that `verify_sector_wiped` reads at `offset`:
`let mut buffer = vec![0u8; 4096]; file.read_exact(&mut buffer)` after a
seek to `offset`, on a device modelled by the byte map `dev`. -/
def window (dev : Nat → Byte) (offset : Nat) : List Byte :=
  (List.range 4096).map (fun i => dev (offset + i))

/-- `RecoveryTest::verify_sector_wiped` (recovery_test.rs lines 58-75):
count the 0x00 bytes and the 0xFF bytes of the window, set
`uniform_threshold = buffer.len() * 8 / 10` (integer division), and return
`zero_count < uniform_threshold && ff_count < uniform_threshold`. -/
def verify_sector_wiped (dev : Nat → Byte) (offset : Nat) : Bool :=
  let buffer := window dev offset
  let zero_count := buffer.count 0
  let ff_count := buffer.count 255
  let uniform_threshold := buffer.length * 8 / 10
  decide (zero_count < uniform_threshold) && decide (ff_count < uniform_threshold)

/-- `RecoveryTest::generate_test_sectors` (recovery_test.rs lines 42-56):
`total_sectors = size / 512`, `tests = min(1000, total_sectors)`, and for
each of the `tests` draws take `rng.next_u64() % total_sectors` and multiply
by 512.  The i-th RNG draw is modelled as `rng i`. -/
def generate_test_sectors (rng : Nat → Nat) (size : Nat) : List Nat :=
  let sector_size := 512
  let total_sectors := size / sector_size
  let tests := min 1000 total_sectors
  (List.range tests).map (fun i => (rng i % total_sectors) * sector_size)

/-- The Phase A scan loop of `verify_wipe` (recovery_test.rs lines 20-31):
walk the sampled offsets in order; on the first offset whose window fails
`verify_sector_wiped` stop and record it.  Returns the first failing offset
(if any) together with the list of offsets actually read and checked. -/
def scanSectors (dev : Nat → Byte) : List Nat → Option Nat × List Nat
  | [] => (none, [])
  | s :: rest =>
    if verify_sector_wiped dev s then
      ((scanSectors dev rest).1, s :: (scanSectors dev rest).2)
    else
      (some s, [s])

/-- The contiguous sample `calculate_entropy` reads from the start of the
device: `sample_size = min(100 * 1024 * 1024, size)` bytes
(recovery_test.rs lines 82-85). -/
def sampleOf (dev : Nat → Byte) (size : Nat) : List Byte :=
  (List.range (min (100 * 1024 * 1024) size)).map dev

/-- The histogram-and-sum part of `RecoveryTest::calculate_entropy`
(recovery_test.rs lines 87-110): a 256-bin byte histogram over the sample,
then `entropy -= p * p.log2()` for every bin with a nonzero count, where
`p = count / length`.  The f64 arithmetic is idealised as real arithmetic. -/
noncomputable def entropyOf (sample : List Byte) : ℝ :=
  ∑ b : Byte,
    if 0 < sample.count b then
      -((sample.count b : ℝ) / (sample.length : ℝ) *
        Real.logb 2 ((sample.count b : ℝ) / (sample.length : ℝ)))
    else 0

/-- `calculate_entropy` on a device: the histogram entropy of the bounded
prefix sample. -/
noncomputable def calculate_entropy (dev : Nat → Byte) (size : Nat) : ℝ :=
  entropyOf (sampleOf dev size)

/-- The Phase B entropy formula exactly as the spec words it:
`H = -Σ p_i * log2(p_i)` over the bins with nonzero count, with
`p_i = count_i / sample_length`.  Stated from the spec, to be compared with
`entropyOf`, which is translated from the source loop. -/
noncomputable def specEntropy (sample : List Byte) : ℝ :=
  -(∑ b ∈ Finset.univ.filter (fun b : Byte => 0 < sample.count b),
      (sample.count b : ℝ) / (sample.length : ℝ) *
        Real.logb 2 ((sample.count b : ℝ) / (sample.length : ℝ)))

/-- The observable outcome of `RecoveryTest::verify_wipe`: the returned
boolean, the offending offset printed by the warning (if any), and the
offsets whose windows were actually read during Phase A. -/
structure VerifyResult where
  passed : Bool
  reported : Option Nat
  checked : List Nat
  deriving Repr, DecidableEq

open Classical in
/-- `RecoveryTest::verify_wipe` (recovery_test.rs lines 10-40): sample the
test offsets, scan them in order aborting on the first suspicious window
(returning `Ok(false)` and printing that offset), and otherwise return
`Ok(entropy_score > 7.5)`.  Reads are modelled as always succeeding (the
device is a total byte map), so the `Result` wrapper is elided. -/
noncomputable def verify_wipe (dev : Nat → Byte) (rng : Nat → Nat) (size : Nat) :
    VerifyResult :=
  let sectors := generate_test_sectors rng size
  let scanRes := scanSectors dev sectors
  match scanRes.1 with
  | some s => ⟨false, some s, scanRes.2⟩
  | none => ⟨if (7.5 : ℝ) < calculate_entropy dev size then true else false,
             none, scanRes.2⟩

/-! ## Wipe Orchestrator (`wipe_orchestrator.rs`) -/

/-- `Algorithm`: the erasure-standard selector of `WipeConfig`.  The enum
declaration itself lives outside the shown sources; the four variants named
by the `match` arms of `generate_pattern` and `convert_to_wipe_algorithm`
appear here, with `OtherStandard` standing for the remaining variants all of
which fall into those functions catch-all `_` arms. -/
inductive Algorithm where
  | Random
  | Zero
  | DoD5220
  | Gutmann
  | OtherStandard
  deriving Repr, DecidableEq

/-- `WipeAlgorithm`, the algorithm type of the integrated wipe drivers, as
targeted by `convert_to_wipe_algorithm`. -/
inductive WipeAlgorithm where
  | Zeros
  | Random
  deriving Repr, DecidableEq

/-- The part of `WipeConfig` the orchestrator reads: the algorithm selector
and the `unlock_encrypted` flag, which `wipe_raid_member` reuses as the
force/authorization flag. -/
structure WipeConfig where
  algorithm : Algorithm
  unlock_encrypted : Bool
  deriving Repr, DecidableEq

/-- `WipeOrchestrator::convert_to_wipe_algorithm` (wipe_orchestrator.rs
lines 468-476): `Zero` maps to `Zeros`; `Random`, `DoD5220`, `Gutmann` and
every remaining variant map to `Random`. -/
def convert_to_wipe_algorithm (alg : Algorithm) : WipeAlgorithm :=
  match alg with
  | .Zero => .Zeros
  | .Random => .Random
  | .DoD5220 => .Random
  | .Gutmann => .Random
  | .OtherStandard => .Random

/-- `WipeOrchestrator::generate_pattern` (wipe_orchestrator.rs lines
519-553): `Zero` yields `vec![0u8; size]`; `Random`, `DoD5220`, `Gutmann`
and the catch-all arm fill a `size`-byte buffer from the secure RNG,
modelled by the fresh stream `rng` whose i-th byte is `rng i`. -/
def generate_pattern (alg : Algorithm) (rng : Nat → Byte) (size : Nat) :
    List Byte :=
  match alg with
  | .Random => (List.range size).map rng
  | .Zero => List.replicate size 0
  | .DoD5220 => (List.range size).map rng
  | .Gutmann => (List.range size).map rng
  | .OtherStandard => (List.range size).map rng

/-- The outcomes of the external I/O steps taken by
`write_pattern_to_region`: whether the `open` succeeds, whether the `seek`
succeeds, whether the secure RNG is available for pattern generation, how
many bytes the device accepts before `write_all` hits an error or a
write-zero condition, and whether `sync_all` succeeds. -/
structure WriteOutcome where
  openOk : Bool
  seekOk : Bool
  rngOk : Bool
  accepted : Nat
  flushOk : Bool
  deriving Repr, DecidableEq

/-- `WipeOrchestrator::write_pattern_to_region` (wipe_orchestrator.rs lines
479-492): open the device for writing, seek to `offset`, generate the
full-size pattern (which can fail if the secure RNG is unavailable), write
it all (`write_all` fails unless the device accepts every byte of the
pattern), and `sync_all`; each failing step propagates its error and aborts
the rest.  Error payloads are abstracted to fixed strings. -/
def write_pattern_to_region (io : WriteOutcome) (config : WipeConfig)
    (rng : Nat → Byte) (_offset size : Nat) : Except String Unit :=
  if io.openOk = false then .error "open failed"
  else if io.seekOk = false then .error "seek failed"
  else if io.rngOk = false then .error "pattern generation failed"
  else if io.accepted < (generate_pattern config.algorithm rng size).length then
    .error "short write"
  else if io.flushOk = false then .error "flush failed"
  else .ok ()

/-- `DriveError`, restricted to the kinds the modelled branches produce. -/
inductive DriveError where
  | Unsupported (msg : String)
  | HardwareCommandFailed (msg : String)
  | IoError (msg : String)
  deriving Repr, DecidableEq

/-- An external interaction performed by an orchestrator branch: a driver
detection/probe call, an invocation of the recovery coordinator under the
given operation name, or the run of the supervised destructive action (the
only place writes to the device can happen). -/
inductive Ev where
  | detect (what : String)
  | coord (opName : String)
  | action
  deriving Repr, DecidableEq

/-- `WipeOrchestrator::wipe_smr_drive` (wipe_orchestrator.rs lines 85-120):
`SMRDrive::get_zone_configuration` first, a failure mapping to
`HardwareCommandFailed` before the coordinator is touched; on success the
integrated wipe runs under `execute_with_recovery("wipe_smr_drive", ...)`,
whose terminal error is re-wrapped as `IoError`.  `cfg` is the detection
outcome, `run` the supervised action outcome. -/
def wipe_smr_drive (cfg run : Except String Unit) :
    Except DriveError Unit × List Ev :=
  match cfg with
  | .error e =>
    (.error (.HardwareCommandFailed ("SMR detection failed: " ++ e)),
     [.detect "smr"])
  | .ok _ =>
    match run with
    | .error e =>
      (.error (.IoError e), [.detect "smr", .coord "wipe_smr_drive", .action])
    | .ok _ => (.ok (), [.detect "smr", .coord "wipe_smr_drive", .action])

/-- `WipeOrchestrator::wipe_optane_drive` (wipe_orchestrator.rs lines
123-158): same shape as the SMR branch with the Optane driver. -/
def wipe_optane_drive (cfg run : Except String Unit) :
    Except DriveError Unit × List Ev :=
  match cfg with
  | .error e =>
    (.error (.HardwareCommandFailed ("Optane detection failed: " ++ e)),
     [.detect "optane"])
  | .ok _ =>
    match run with
    | .error e =>
      (.error (.IoError e),
       [.detect "optane", .coord "wipe_optane_drive", .action])
    | .ok _ => (.ok (), [.detect "optane", .coord "wipe_optane_drive", .action])

/-- `WipeOrchestrator::wipe_hybrid_drive` (wipe_orchestrator.rs lines
161-195): same shape with the hybrid driver. -/
def wipe_hybrid_drive (cfg run : Except String Unit) :
    Except DriveError Unit × List Ev :=
  match cfg with
  | .error e =>
    (.error (.HardwareCommandFailed ("Hybrid detection failed: " ++ e)),
     [.detect "hybrid"])
  | .ok _ =>
    match run with
    | .error e =>
      (.error (.IoError e),
       [.detect "hybrid", .coord "wipe_hybrid_drive", .action])
    | .ok _ => (.ok (), [.detect "hybrid", .coord "wipe_hybrid_drive", .action])

/-- `WipeOrchestrator::wipe_emmc_drive` (wipe_orchestrator.rs lines
198-232): same shape with the eMMC driver. -/
def wipe_emmc_drive (cfg run : Except String Unit) :
    Except DriveError Unit × List Ev :=
  match cfg with
  | .error e =>
    (.error (.HardwareCommandFailed ("eMMC detection failed: " ++ e)),
     [.detect "emmc"])
  | .ok _ =>
    match run with
    | .error e =>
      (.error (.IoError e), [.detect "emmc", .coord "wipe_emmc_drive", .action])
    | .ok _ => (.ok (), [.detect "emmc", .coord "wipe_emmc_drive", .action])

/-- `WipeOrchestrator::wipe_nvme_drive` (wipe_orchestrator.rs lines
273-349): `NVMeAdvanced::detect_advanced_features(...).unwrap_or(false)`
decides the path — an `Err` from the probe is swallowed and treated exactly
like `false`.  On the advanced path `get_configuration` failure maps to
`HardwareCommandFailed` before the coordinator; otherwise the advanced wipe
runs under `execute_with_recovery("wipe_nvme_advanced", ...)`.  On the basic
path the sanitize command runs under
`execute_with_recovery("wipe_nvme_basic", ...)`.  Coordinator-terminal
errors are re-wrapped as `IoError`. -/
def wipe_nvme_drive (detect : Except String Bool)
    (cfg advRun basicRun : Except String Unit) :
    Except DriveError Unit × List Ev :=
  if (match detect with | .ok b => b | .error _ => false) then
    match cfg with
    | .error e =>
      (.error (.HardwareCommandFailed ("NVMe advanced detection failed: " ++ e)),
       [.detect "nvme_features", .detect "nvme_advanced"])
    | .ok _ =>
      match advRun with
      | .error e =>
        (.error (.IoError e),
         [.detect "nvme_features", .detect "nvme_advanced",
          .coord "wipe_nvme_advanced", .action])
      | .ok _ =>
        (.ok (),
         [.detect "nvme_features", .detect "nvme_advanced",
          .coord "wipe_nvme_advanced", .action])
  else
    match basicRun with
    | .error e =>
      (.error (.IoError e),
       [.detect "nvme_features", .coord "wipe_nvme_basic", .action])
    | .ok _ =>
      (.ok (), [.detect "nvme_features", .coord "wipe_nvme_basic", .action])

/-- `WipeOrchestrator::wipe_raid_member` (wipe_orchestrator.rs lines
422-465): if `config.unlock_encrypted` (reused as the force flag) is not
set, return `Unsupported` at once — before `RAIDArray::get_configuration`
and before the coordinator, so the event list is empty.  Otherwise the
detection failure maps to `HardwareCommandFailed`, and on success the array
wipe runs under `execute_with_recovery("wipe_raid_member", ...)`. -/
def wipe_raid_member (config : WipeConfig) (cfg run : Except String Unit) :
    Except DriveError Unit × List Ev :=
  if config.unlock_encrypted = false then
    (.error (.Unsupported "Wiping RAID members requires --force flag"), [])
  else
    match cfg with
    | .error e =>
      (.error (.HardwareCommandFailed ("RAID detection failed: " ++ e)),
       [.detect "raid"])
    | .ok _ =>
      match run with
      | .error e =>
        (.error (.IoError e), [.detect "raid", .coord "wipe_raid_member", .action])
      | .ok _ => (.ok (), [.detect "raid", .coord "wipe_raid_member", .action])

/-! ## Concrete devices and streams used by witnesses and counterexamples -/

/-- An all-zero device. -/
def dev0 : Nat → Byte := fun _ => 0

/-- An RNG stream that always draws 0. -/
def rng0 : Nat → Nat := fun _ => 0

/-- A device whose first 3276 bytes are 0x00 and whose remaining bytes are
0x01: its window at offset 0 has exactly 3276 zero bytes out of 4096. -/
def dev3276 : Nat → Byte := fun i => if i < 3276 then 0 else 1

/-! ## Helper lemmas -/

/-- The window of a constant device is a constant list. -/
lemma window_const (c : Byte) (offset : Nat) :
    window (fun _ => c) offset = List.replicate 4096 c := by
  simp only [window]
  rw [List.map_const', List.length_range]

/-- The window of `dev3276` at offset 0: 3276 zero bytes then 820 one
bytes. -/
lemma window_dev3276 :
    window dev3276 0 = List.replicate 3276 0 ++ List.replicate 820 1 := by
  have h1 : (List.range 3276).map (fun i => dev3276 (0 + i))
      = List.replicate 3276 (0 : Byte) :=
    calc (List.range 3276).map (fun i => dev3276 (0 + i))
        = (List.range 3276).map (fun _ => (0 : Byte)) :=
          List.map_congr_left (fun a ha => by
            simp only [dev3276, Nat.zero_add]
            rw [if_pos (List.mem_range.mp ha)])
      _ = List.replicate 3276 (0 : Byte) := by
          rw [List.map_const', List.length_range]
  have h2 : (List.range 820).map ((fun i => dev3276 (0 + i)) ∘ fun x => 3276 + x)
      = List.replicate 820 (1 : Byte) :=
    calc (List.range 820).map ((fun i => dev3276 (0 + i)) ∘ fun x => 3276 + x)
        = (List.range 820).map (fun _ => (1 : Byte)) :=
          List.map_congr_left (fun a _ => by
            simp only [Function.comp_apply, dev3276, Nat.zero_add]
            rw [if_neg (by omega)])
      _ = List.replicate 820 (1 : Byte) := by
          rw [List.map_const', List.length_range]
  simp only [window]
  rw [show (4096 : Nat) = 3276 + 820 from rfl, List.range_add, List.map_append,
    List.map_map, h1, h2]

/-- Byte counts of the boundary window: exactly 3276 zero bytes, no 0xFF
bytes, 4096 bytes in total. -/
lemma dev3276_counts :
    (window dev3276 0).count 0 = 3276 ∧ (window dev3276 0).count 255 = 0 ∧
      (window dev3276 0).length = 4096 := by
  rw [window_dev3276]
  refine ⟨?_, ?_, ?_⟩ <;>
    simp only [List.count_append, List.count_replicate, List.length_append,
      List.length_replicate] <;>
    (norm_num; try decide)

/-- An all-zero window fails `verify_sector_wiped`. -/
lemma verify_sector_wiped_dev0 (offset : Nat) :
    verify_sector_wiped dev0 offset = false := by
  have h : window dev0 offset = List.replicate 4096 0 := window_const 0 offset
  simp only [verify_sector_wiped, h, List.count_replicate,
    List.length_replicate]
  norm_num

/-- The Phase A scan finds nothing exactly when every sampled window passes
`verify_sector_wiped`. -/
lemma scan_fst_none_iff (dev : Nat → Byte) (l : List Nat) :
    (scanSectors dev l).1 = none ↔ ∀ o ∈ l, verify_sector_wiped dev o = true := by
  induction l with
  | nil => simp [scanSectors]
  | cons s rest ih =>
    by_cases h : verify_sector_wiped dev s = true
    · simp [scanSectors, h, ih]
    · simp only [Bool.not_eq_true] at h
      simp [scanSectors, h]

/-- If the windows before index `i` all pass and the window at index `i`
fails, the scan stops at index `i`: it reports the offset at `i` and has
read exactly the first `i + 1` offsets. -/
lemma scan_first_bad (dev : Nat → Byte) (l : List Nat) :
    ∀ (i : Nat) (h : i < l.length),
      (∀ j (hj : j < i),
        verify_sector_wiped dev (l.get ⟨j, Nat.lt_trans hj h⟩) = true) →
      verify_sector_wiped dev (l.get ⟨i, h⟩) = false →
      scanSectors dev l = (some (l.get ⟨i, h⟩), l.take (i + 1)) := by
  induction l with
  | nil => intro i h; exact absurd h (Nat.not_lt_zero i)
  | cons s rest ih =>
    intro i h hgood hbad
    cases i with
    | zero =>
      have hs : verify_sector_wiped dev s = false := hbad
      simp [scanSectors, hs]
    | succ i =>
      have hhead : verify_sector_wiped dev s = true := hgood 0 (Nat.succ_pos i)
      have htail := ih i (Nat.lt_of_succ_lt_succ h)
        (fun j hj => hgood (j + 1) (Nat.succ_lt_succ hj)) hbad
      simp [scanSectors, hhead, htail]

open Classical in
/-- The boolean `verify_wipe` returns, written as one expression: false as
soon as the scan reports an offset, and the entropy comparison otherwise. -/
lemma verify_wipe_passed_eq (dev : Nat → Byte) (rng : Nat → Nat) (size : Nat) :
    (verify_wipe dev rng size).passed =
      (if (scanSectors dev (generate_test_sectors rng size)).1 = none
       then (if (7.5 : ℝ) < calculate_entropy dev size then true else false)
       else false) := by
  unfold verify_wipe
  rcases h : (scanSectors dev (generate_test_sectors rng size)).1 with _ | s <;>
    simp [h]

/-- The offset `verify_wipe` reports is exactly what the scan found. -/
lemma verify_wipe_reported_eq (dev : Nat → Byte) (rng : Nat → Nat) (size : Nat) :
    (verify_wipe dev rng size).reported =
      (scanSectors dev (generate_test_sectors rng size)).1 := by
  unfold verify_wipe
  rcases h : (scanSectors dev (generate_test_sectors rng size)).1 with _ | s <;>
    simp [h]

/-- The pattern buffer always has exactly the requested length. -/
lemma generate_pattern_length (alg : Algorithm) (rng : Nat → Byte) (n : Nat) :
    (generate_pattern alg rng n).length = n := by
  cases alg <;> simp [generate_pattern]

/-! ## Claims -/

/-- C1: for every device and size, `verify_wipe` returns true if and only
if no sampled Phase A window is classified suspicious and the Phase B
empirical Shannon entropy of the bounded prefix sample strictly exceeds 7.5
bits per byte.  A failed audit is the boolean `false` (the `passed` field),
not an error: reads are total in this model and the only outcome channel is
the returned `VerifyResult`. -/
theorem verify_wipe_true_iff (dev : Nat → Byte) (rng : Nat → Nat) (size : Nat) :
    (verify_wipe dev rng size).passed = true ↔
      ((∀ o ∈ generate_test_sectors rng size,
          verify_sector_wiped dev o = true) ∧
        (7.5 : ℝ) < calculate_entropy dev size) := by
  rw [verify_wipe_passed_eq]
  by_cases h : (scanSectors dev (generate_test_sectors rng size)).1 = none
  · rw [if_pos h]
    rw [scan_fst_none_iff] at h
    constructor
    · intro ht
      refine ⟨h, ?_⟩
      by_contra hn
      rw [if_neg hn] at ht
      exact Bool.false_ne_true ht
    · rintro ⟨-, hH⟩
      rw [if_pos hH]
  · rw [if_neg h]
    constructor
    · intro hf
      exact absurd hf Bool.false_ne_true
    · rintro ⟨hall, -⟩
      exact absurd ((scan_fst_none_iff dev _).mpr hall) h

/-- C2 counterexample: the window of `dev3276` at offset 0 has exactly 3276
of its 4096 bytes equal to 0x00 — which is not strictly more than 80% of
4096 (that would need at least 3277) — and no 0xFF bytes at all, yet the
code classifies it suspicious (`verify_sector_wiped` returns false). -/
theorem sector_threshold_boundary_counterexample :
    verify_sector_wiped dev3276 0 = false ∧
      ¬ 8 * (window dev3276 0).length < 10 * (window dev3276 0).count 0 ∧
      ¬ 8 * (window dev3276 0).length < 10 * (window dev3276 0).count 255 := by
  obtain ⟨hc0, hc255, hlen⟩ := dev3276_counts
  refine ⟨?_, ?_, ?_⟩
  · simp only [verify_sector_wiped, hc0, hc255, hlen]
    norm_num
  · rw [hlen, hc0]; norm_num
  · rw [hlen, hc255]; norm_num

/-- C2 (amended): a Phase A window is classified suspicious (the sector
check returns false) if and only if at least `len * 8 / 10` of its bytes —
integer division, i.e. at least 3276 of the 4096 bytes, which is reached
just below the 80% mark — equal 0x00, or at least that many equal 0xFF,
each value checked independently; no other dominant byte value counts. -/
theorem sector_suspicious_iff (dev : Nat → Byte) (offset : Nat) :
    verify_sector_wiped dev offset = false ↔
      ((window dev offset).length * 8 / 10 ≤ (window dev offset).count 0 ∨
        (window dev offset).length * 8 / 10 ≤ (window dev offset).count 255) := by
  simp [verify_sector_wiped, Bool.and_eq_false_iff, decide_eq_false_iff_not,
    Nat.not_lt]
  omega

/-- C3: the Phase A sampler can overrun the device.  On a 4096-byte device
(8 sectors of 512 bytes) the RNG may draw sector index 7, producing the
byte offset 3584; the fixed 4096-byte window read at that offset ends at
byte 7680, beyond the device size, violating the claimed invariant
`offset + length ≤ size`. -/
theorem sampler_overruns_device :
    3584 ∈ generate_test_sectors (fun _ => 7) 4096 ∧ 4096 < 3584 + 4096 := by
  decide

/-- C4 counterexample: when the NVMe advanced-feature probe fails
(`detect_advanced_features` returns an error), the branch does not
propagate a `HardwareCommandFailed` error — it swallows the failure via
`unwrap_or(false)`, proceeds to the standard sanitize path under the
recovery coordinator, and (with the sanitize succeeding) returns success. -/
theorem nvme_probe_failure_swallowed :
    (wipe_nvme_drive (.error "probe failed") (.ok ()) (.ok ()) (.ok ())).1 =
        .ok () ∧
      Ev.coord "wipe_nvme_basic" ∈
        (wipe_nvme_drive (.error "probe failed") (.ok ()) (.ok ()) (.ok ())).2 := by
  refine ⟨rfl, ?_⟩
  simp [wipe_nvme_drive]

/-- C4 (amended): in every branch, a failure of the external driver's
`get_configuration` call propagates immediately as `HardwareCommandFailed`
with the recovery coordinator never invoked (so no retry); but a failure of
the NVMe advanced-feature detection probe does not propagate — it is
treated exactly as if no advanced features were present, and the branch
falls back to the standard sanitize path under the coordinator. -/
theorem detection_failure_semantics (e : String)
    (run runB cfg adv : Except String Unit) :
    wipe_smr_drive (.error e) run =
        (.error (.HardwareCommandFailed ("SMR detection failed: " ++ e)),
         [.detect "smr"]) ∧
      wipe_optane_drive (.error e) run =
        (.error (.HardwareCommandFailed ("Optane detection failed: " ++ e)),
         [.detect "optane"]) ∧
      wipe_hybrid_drive (.error e) run =
        (.error (.HardwareCommandFailed ("Hybrid detection failed: " ++ e)),
         [.detect "hybrid"]) ∧
      wipe_emmc_drive (.error e) run =
        (.error (.HardwareCommandFailed ("eMMC detection failed: " ++ e)),
         [.detect "emmc"]) ∧
      wipe_nvme_drive (.ok true) (.error e) run runB =
        (.error (.HardwareCommandFailed ("NVMe advanced detection failed: " ++ e)),
         [.detect "nvme_features", .detect "nvme_advanced"]) ∧
      wipe_raid_member ⟨Algorithm.Random, true⟩ (.error e) run =
        (.error (.HardwareCommandFailed ("RAID detection failed: " ++ e)),
         [.detect "raid"]) ∧
      wipe_nvme_drive (.error e) cfg adv runB =
        wipe_nvme_drive (.ok false) cfg adv runB := by
  exact ⟨rfl, rfl, rfl, rfl, rfl, rfl, rfl⟩

/-- C5: the direct overwrite primitive returns success exactly when the
open, the seek, the pattern generation, the complete full-length write and
the durable flush all succeed; a short write (fewer accepted bytes than
the generated pattern's length, which is the full region size) or a failed
flush yields an error, never success. -/
theorem write_pattern_success_iff (io : WriteOutcome) (config : WipeConfig)
    (rng : Nat → Byte) (offset size : Nat) :
    write_pattern_to_region io config rng offset size = .ok () ↔
      (io.openOk = true ∧ io.seekOk = true ∧ io.rngOk = true ∧
        size ≤ io.accepted ∧ io.flushOk = true) := by
  rcases io with ⟨o, s, r, a, f⟩
  simp only [write_pattern_to_region, generate_pattern_length]
  cases o <;> cases s <;> cases r <;> cases f <;>
    by_cases h : a < size <;>
    (simp [h, Nat.not_lt]; try omega)

/-- C6: an unauthorized RAID-member wipe (force flag clear) returns the
`Unsupported` error with an empty interaction list: no driver detection
call, no recovery-coordinator invocation, no supervised action, and hence
zero writes to the device. -/
theorem raid_unauthorized_refuses (config : WipeConfig)
    (cfg run : Except String Unit) (h : config.unlock_encrypted = false) :
    wipe_raid_member config cfg run =
      (.error (.Unsupported "Wiping RAID members requires --force flag"),
       ([] : List Ev)) := by
  simp [wipe_raid_member, h]

/-- C6 witness: a concrete unauthorized configuration. -/
theorem raid_unauthorized_refuses_witness :
    wipe_raid_member ⟨Algorithm.Random, false⟩ (.ok ()) (.ok ()) =
      (.error (.Unsupported "Wiping RAID members requires --force flag"),
       ([] : List Ev)) :=
  raid_unauthorized_refuses ⟨Algorithm.Random, false⟩ (.ok ()) (.ok ()) rfl

/-- C7: pattern generation realizes exactly two behaviors — the all-zero
algorithm yields an n-byte all-zero buffer, and every other algorithm
(random, DoD 5220, Gutmann, or any remaining variant) yields the n bytes of
the secure random stream; the result always has the requested length, and
the algorithm conversion collapses to the same two-way split. -/
theorem generate_pattern_two_behaviors (alg : Algorithm) (rng : Nat → Byte)
    (n : Nat) :
    (generate_pattern alg rng n).length = n ∧
      generate_pattern alg rng n =
        (if alg = Algorithm.Zero then List.replicate n 0
         else (List.range n).map rng) ∧
      convert_to_wipe_algorithm alg =
        (if alg = Algorithm.Zero then WipeAlgorithm.Zeros
         else WipeAlgorithm.Random) := by
  refine ⟨generate_pattern_length alg rng n, ?_, ?_⟩ <;>
    cases alg <;>
    simp [generate_pattern, convert_to_wipe_algorithm]

/-- C8: the first suspicious window aborts the Phase A scan immediately —
if the windows at the sampled offsets before index `i` pass and the window
at index `i` fails, `verify_wipe` returns failure, reports the offset at
index `i`, and reads exactly the first `i + 1` sampled offsets, never the
remaining ones. -/
theorem first_suspicious_aborts (dev : Nat → Byte) (rng : Nat → Nat)
    (size i : Nat) (h : i < (generate_test_sectors rng size).length)
    (hgood : ∀ j (hj : j < i),
      verify_sector_wiped dev
        ((generate_test_sectors rng size).get ⟨j, Nat.lt_trans hj h⟩) = true)
    (hbad : verify_sector_wiped dev
      ((generate_test_sectors rng size).get ⟨i, h⟩) = false) :
    verify_wipe dev rng size =
      ⟨false, some ((generate_test_sectors rng size).get ⟨i, h⟩),
        (generate_test_sectors rng size).take (i + 1)⟩ := by
  have hscan := scan_first_bad dev (generate_test_sectors rng size) i h hgood hbad
  unfold verify_wipe
  simp [hscan]

/-- C8 witness: on an all-zero 4096-byte device the very first sampled
offset (0) is suspicious, `verify_wipe` reports it and checks nothing
else. -/
theorem first_suspicious_aborts_witness :
    (verify_wipe dev0 rng0 4096).passed = false ∧
      (verify_wipe dev0 rng0 4096).reported = some 0 ∧
      (verify_wipe dev0 rng0 4096).checked = [0] := by
  have h := first_suspicious_aborts dev0 rng0 4096 0 (by decide)
    (fun j hj => absurd hj (Nat.not_lt_zero j)) (verify_sector_wiped_dev0 _)
  rw [h]
  exact ⟨rfl, rfl, rfl⟩

/-- C9: the Phase B entropy of a sample equals the spec's formula
`-Σ p_i * log2 p_i` over the nonzero histogram bins with
`p_i = count_i / length`, and it is order-independent: permuted samples
(equal byte frequencies) yield exactly the same entropy. -/
theorem entropy_formula_perm_invariant (s1 s2 : List Byte)
    (hperm : s1.Perm s2) :
    entropyOf s1 = specEntropy s1 ∧ entropyOf s1 = entropyOf s2 := by
  constructor
  · simp [entropyOf, specEntropy, Finset.sum_filter,
      ← Finset.sum_neg_distrib, apply_ite (fun x : ℝ => -x)]
  · simp [entropyOf, hperm.count_eq, hperm.length_eq]

/-- C9 witness: the two-byte samples 00 01 and 01 00 are permutations of
each other. -/
theorem entropy_formula_perm_invariant_witness :
    entropyOf [(0 : Byte), 1] = specEntropy [(0 : Byte), 1] ∧
      entropyOf [(0 : Byte), 1] = entropyOf [(1 : Byte), 0] :=
  entropy_formula_perm_invariant [(0 : Byte), 1] [(1 : Byte), 0] (by decide)

/-- C10: on a device smaller than one 512-byte sector, Phase A draws zero
sample offsets (`min 1000 (size / 512) = 0`), so nothing is ever reported
suspicious and the verdict is exactly the Phase B entropy comparison. -/
theorem tiny_device_phase_a_vacuous (dev : Nat → Byte) (rng : Nat → Nat)
    (size : Nat) (h : size < 512) :
    generate_test_sectors rng size = [] ∧
      (verify_wipe dev rng size).reported = none ∧
      ((verify_wipe dev rng size).passed = true ↔
        (7.5 : ℝ) < calculate_entropy dev size) := by
  have hs : generate_test_sectors rng size = [] := by
    simp [generate_test_sectors, Nat.div_eq_of_lt h]
  have hnone : (scanSectors dev (generate_test_sectors rng size)).1 = none := by
    rw [hs]; rfl
  refine ⟨hs, ?_, ?_⟩
  · rw [verify_wipe_reported_eq, hnone]
  · rw [verify_wipe_passed_eq, if_pos hnone]
    constructor
    · intro ht
      by_contra hn
      rw [if_neg hn] at ht
      exact Bool.false_ne_true ht
    · intro hH
      rw [if_pos hH]

/-- C10 witness: a 100-byte device draws no sample offsets. -/
theorem tiny_device_phase_a_vacuous_witness :
    generate_test_sectors rng0 100 = [] ∧
      (verify_wipe dev0 rng0 100).reported = none ∧
      ((verify_wipe dev0 rng0 100).passed = true ↔
        (7.5 : ℝ) < calculate_entropy dev0 100) :=
  tiny_device_phase_a_vacuous dev0 rng0 100 (by norm_num)

end Sayonara
